import Mathlib

/-!
# Verification of the ai_screener interview pipeline

Shallow embedding of the phone-screening pipeline of the `ai_screener`
repository (Django application).  The Python sources embedded here are:

* `interviews/services.py` — `OpenAIService` (question generation with retry
  and fallback), `TwilioService.initiate_call` (validation and allow-list),
  `TranscriptionService.transcribe_audio` (download/transcribe with total
  error degradation);
* `interviews/views.py` — `JDToQuestionsView.post` (job-description
  deduplication), `TwilioWebhookView.handle_call_status`,
  `TwilioWebhookView.handle_record_response`,
  `TwilioWebhookView.generate_final_results`;
* `interviews/models.py` — the relational data model (Interview,
  InterviewResponse, InterviewResult with its one-to-one constraint);
* `fix_stuck_interviews.py` — the stuck-session sweep.

External effects (the OpenAI and Twilio network calls, wall-clock time) are
passed in as explicit environment values describing the outcome of each call;
everything else is translated directly from the Python source.
-/

deriving instance DecidableEq for Except

namespace AIScreener

/-! ## Python string primitives used by `services.py` -/

/-- The double-quote character (Python `'"'`). -/
def dquote : Char := Char.ofNat 34

/-- The single-quote character (Python `"'"`). -/
def squote : Char := Char.ofNat 39

/-- The backtick character, stripped by `generate_questions_from_jd`. -/
def btick : Char := Char.ofNat 96

/-- Python `s.strip(chars)`: remove characters satisfying `p` from both ends
of the string. -/
def pyStrip (p : Char → Bool) (s : String) : String :=
  let l := s.data.dropWhile p
  String.mk ((l.reverse.dropWhile p).reverse)

/-- Python `s.strip()` — strip whitespace from both ends. -/
def pyStripWs (s : String) : String := pyStrip Char.isWhitespace s

/-- Is the first list a prefix of the second?  (Structural-recursion
counterpart of `String.startsWith`, so that concrete runs reduce inside the
kernel.) -/
def startsWithL : List Char → List Char → Bool
  | [], _ => true
  | _ :: _, [] => false
  | a :: as, b :: bs => a == b && startsWithL as bs

/-- Does `sub` occur inside the second list?  (Python `sub in s`.) -/
def containsL (sub : List Char) : List Char → Bool
  | [] => sub.isEmpty
  | c :: cs => startsWithL sub (c :: cs) || containsL sub cs

/-- Python `sub in s`. -/
def containsSub (s sub : String) : Bool := containsL sub.data s.data

/-- Python `s.startswith(pre)`. -/
def pyStartsWith (s pre : String) : Bool := startsWithL pre.data s.data

/-- Python `s.endswith(suf)`. -/
def pyEndsWith (s suf : String) : Bool := startsWithL suf.data.reverse s.data.reverse

/-- Python `s.lower()`. -/
def pyToLower (s : String) : String := String.mk (s.data.map Char.toLower)

/-- Fuel-based splitter behind `pySplit`; the fuel (`length + 1` at the top
call) strictly bounds the number of steps, every step consuming at least one
character of the remainder. -/
def splitGo (sep : List Char) : Nat → List Char → List Char → List (List Char)
  | 0, acc, rest => [acc.reverse ++ rest]
  | fuel + 1, acc, rest =>
      if startsWithL sep rest ∧ sep ≠ [] then
        acc.reverse :: splitGo sep fuel [] (rest.drop sep.length)
      else
        match rest with
        | [] => [acc.reverse]
        | c :: cs => splitGo sep fuel (c :: acc) cs

/-- Python `s.split(sep)` for a nonempty separator. -/
def pySplit (s sep : String) : List String :=
  (splitGo sep.data (s.data.length + 1) [] s.data).map String.mk

/-- Fuel-based scanner behind `pyReplace`. -/
def replaceGo (pat repl : List Char) : Nat → List Char → List Char
  | 0, rest => rest
  | fuel + 1, rest =>
      if startsWithL pat rest ∧ pat ≠ [] then
        repl ++ replaceGo pat repl fuel (rest.drop pat.length)
      else
        match rest with
        | [] => []
        | c :: cs => c :: replaceGo pat repl fuel cs

/-- Python `s.replace(pat, repl)` (all occurrences) for a nonempty pattern. -/
def pyReplace (s pat repl : String) : String :=
  String.mk (replaceGo pat.data repl.data (s.data.length + 1) s.data)

/-! ## `services.py` — `OpenAIService`

`_make_request` performs up to `max_retries = 3` attempts against the OpenAI
chat API; an attempt either returns the message content (modelled as
`Except.ok` with the raw content, to which the source applies `.strip()`) or
raises with some message (`Except.error`).  Retryable errors (message
containing "503", "429" or "timeout" case-insensitively) are retried while
attempts remain; other errors, and the final attempt's error, are raised. -/

/-- `services.py:90` — which provider errors are retried. -/
def retryableError (m : String) : Bool :=
  containsSub m "503" || containsSub m "429" || containsSub (pyToLower m) "timeout"

/-- `services.py:50-99` — `OpenAIService._make_request`, as a function of the
list of attempt outcomes (the source always runs with a 3-element attempt
budget; the `[]` case is unreachable). -/
def makeRequest : List (Except String String) → Except String String
  | [] => Except.error "no attempts"
  | (Except.ok t) :: _ => Except.ok (pyStripWs t)
  | [Except.error m] => Except.error m
  | (Except.error m) :: rest =>
      if retryableError m then makeRequest rest else Except.error m

/-- `services.py:100-124` — `OpenAIService.clean_questions`: drop empty lines
and the literal token "json", strip whitespace/quote wrapping, drop entries
that become empty. -/
def cleanQuestions : List String → List String
  | [] => []
  | q :: rest =>
      if q = "" ∨ pyToLower q = "json" then cleanQuestions rest
      else
        let q1 := pyStripWs (pyStrip (· == squote) (pyStrip (· == dquote) (pyStripWs q)))
        if q1 = "" then cleanQuestions rest else q1 :: cleanQuestions rest

/-- `services.py:190-196` — the hardcoded fallback question set. -/
def fallbackQuestions : List String :=
  [ "Can you tell me about your relevant experience for this role?"
  , "What are your key strengths that would make you successful in this position?"
  , "Describe a challenging project you worked on and how you handled it."
  , "What interests you most about this opportunity?"
  , "Where do you see yourself professionally in the next few years?" ]

/-- `services.py:168-179` — the line-based fallback parser used when the
provider response is not valid JSON: split on newlines, strip
whitespace/quotes, drop bare bracket lines, drop a trailing comma. -/
def parseLines (text : String) : List String :=
  (pySplit text "\n").foldl
    (fun acc line =>
      let l := pyStrip (· == squote) (pyStrip (· == dquote) (pyStripWs line))
      if l ≠ "" ∧ l ≠ "[" ∧ l ≠ "]" then
        let l2 := if pyEndsWith l "," then pyStripWs (String.mk l.data.dropLast) else l
        acc ++ [l2]
      else acc)
    []

/-- Environment for one `generate_questions_from_jd` run: the outcomes of the
up-to-3 provider attempts, and the outcome of `json.loads` on the returned
text (`none` models `json.JSONDecodeError`, which makes the source fall back
to line parsing). -/
structure GenEnv where
  attempts : List (Except String String)
  jsonParsed : Option (List String)
  deriving DecidableEq

/-- `services.py:126-197` — `OpenAIService.generate_questions_from_jd`.  On
provider success the response text is stripped of whitespace and backticks,
parsed (JSON first, then line-based), truncated to the first element
(`questions[:1]` at `services.py:182`) and cleaned.  If the provider call
raises, the `except` branch returns `clean_questions(fallback_questions[:1])`
(`services.py:197`). -/
def generateQuestionsFromJd (_title _description : String) (env : GenEnv) :
    List String :=
  match makeRequest env.attempts with
  | Except.error _ => cleanQuestions (fallbackQuestions.take 1)
  | Except.ok text =>
      let t := pyStripWs (pyStrip (· == btick) (pyStripWs text))
      let questions :=
        match env.jsonParsed with
        | some qs => qs
        | none => parseLines t
      cleanQuestions (questions.take 1)

/-! ## `services.py` — `TwilioService.initiate_call` -/

/-- Outcome of one `initiate_call` invocation. -/
inductive CallAttempt where
  /-- One of the three `ValueError`s raised by the input validation. -/
  | precondError (msg : String)
  /-- The allow-list `ValueError` at `services.py:401`. -/
  | notWhitelisted (phone : String)
  /-- The call was placed; carries the provider call SID. -/
  | placed (sid : String)
  deriving DecidableEq

/-- `services.py:365-444` — `TwilioService.initiate_call`.  `whitelistParsed`
is the result of `json.loads` on the `WHITELISTED_NUMBERS` environment value
(`none` models a `JSONDecodeError`, which falls back to `["*"]`; an unset
variable parses the default string to `["*"]`).  `twilioSid` is the SID the
provider would assign.  `placedCalls` is a log of outbound calls actually
created, threaded through so that repeated invocations can be talked about. -/
def initiateCall (interviewId candidatePhone : String) (questions : List String)
    (whitelistParsed : Option (List String)) (twilioSid : String)
    (placedCalls : List String) : CallAttempt × List String :=
  if interviewId = "" then
    (CallAttempt.precondError "interview_id cannot be empty", placedCalls)
  else if candidatePhone = "" then
    (CallAttempt.precondError "candidate_phone cannot be empty", placedCalls)
  else if questions = [] then
    (CallAttempt.precondError "questions list cannot be empty", placedCalls)
  else
    let wl := whitelistParsed.getD ["*"]
    if ¬ wl.contains "*" ∧ ¬ wl.contains candidatePhone then
      (CallAttempt.notWhitelisted candidatePhone, placedCalls)
    else
      (CallAttempt.placed twilioSid, placedCalls ++ [twilioSid])

/-! ## `services.py` — `TranscriptionService`

`transcribe_audio` is one big `try` whose trailing
`except Exception as e: return f"Transcription failed: {str(e)}"`
(`services.py:797-801`) turns every raised error into a returned sentinel
string.  The network steps are modelled by an environment recording the
outcome of each provider interaction. -/

/-- `services.py:803-852` — `TranscriptionService._extract_recording_sid`:
pull the recording SID out of one of the known URL shapes and validate it
("RE" followed by 32 characters). -/
def extractRecordingSid (audioUrl : String) : Option String :=
  let sid? : Option String :=
    if containsSub audioUrl "/Recordings/" then
      some (((pySplit ((pySplit audioUrl "/Recordings/").getLastD "") "?").headD ""))
    else if containsSub audioUrl "/recordings/" then
      some (((pySplit ((pySplit audioUrl "/recordings/").getLastD "") "?").headD ""))
    else
      match (pySplit audioUrl "/").reverse.find?
          (fun part => pyStartsWith part "RE" && decide (10 < part.length)) with
      | some part => some ((pySplit part "?").headD "")
      | none => none
  match sid? with
  | none => none
  | some sid =>
      if pyStartsWith sid "RE" && decide (sid.length = 34) then some sid else none

/-- What the Twilio recordings API reports for the recording, after the
bounded status-wait loop of `services.py:659-685` has finished:
`uri`/`mediaLocation` as returned, and the final observed status. -/
structure RecordingInfo where
  uri : Option String
  mediaLocation : Option String
  finalStatus : String
  deriving DecidableEq

/-- Outcome of one audio-download attempt (`requests.get` at
`services.py:733-737`). -/
inductive DownloadOutcome where
  /-- HTTP 200; carries the audio bytes. -/
  | ok (audio : String)
  /-- HTTP 404 — possibly-transient, retried. -/
  | notFound
  /-- Any other HTTP status. -/
  | httpError (code : Nat)
  deriving DecidableEq

/-- `services.py:726-776` — the download loop (`max_retries = 3`).  A raise
inside the loop body is caught by the `except` at `services.py:765`, which
retries while attempts remain and on the last attempt re-raises wrapped in
"Failed to download audio after 3 attempts: ...". -/
def downloadLoop : List DownloadOutcome → Except String String
  | [] => Except.error "Failed to download audio after 3 attempts: "
  | [d] =>
      match d with
      | DownloadOutcome.ok audio => Except.ok audio
      | DownloadOutcome.notFound =>
          Except.error ("Failed to download audio after 3 attempts: "
            ++ "Audio file not available after 3 attempts (HTTP 404)")
      | DownloadOutcome.httpError code =>
          Except.error ("Failed to download audio after 3 attempts: "
            ++ "Failed to download audio: HTTP " ++ toString code)
  | d :: rest =>
      match d with
      | DownloadOutcome.ok audio => Except.ok audio
      | _ => downloadLoop rest

/-- Environment for one `transcribe_audio` run: the outcome of the recordings
fetch (`Except.error` covers both a fetch exception and the status never
reaching "completed", each re-raised as "Failed to fetch recording: ..." via
`services.py:687-690`), the three download attempt outcomes, and the outcome
of the Whisper call. -/
structure TranscribeEnv where
  fetched : Except String RecordingInfo
  download1 : DownloadOutcome
  download2 : DownloadOutcome
  download3 : DownloadOutcome
  whisper : Except String String
  deriving DecidableEq

/-- `services.py:692-706` — derive the media URL: prefer `uri` (with ".json"
removed and ".mp3" appended), else `media_location`, else raise. -/
def mediaUrlOf (info : RecordingInfo) : Option String :=
  match info.uri with
  | some u => some ("https://api.twilio.com" ++ (pyReplace u ".json" "") ++ ".mp3")
  | none => info.mediaLocation

/-- The body of `transcribe_audio` up to its outermost `except`: each failing
stage raises (here: returns `Except.error`) with the message built by the
source.  The `requests.head` accessibility probe at `services.py:711-724`
only logs and cannot change the result, so it has no counterpart here. -/
def transcribeAudioInner (env : TranscribeEnv) (audioUrl : String) :
    Except String String :=
  match extractRecordingSid audioUrl with
  | none => Except.error "Could not extract recording SID from URL"
  | some _sid =>
      match env.fetched with
      | Except.error e => Except.error ("Failed to fetch recording: " ++ e)
      | Except.ok info =>
          if info.finalStatus ≠ "completed" then
            -- the raise at services.py:683, re-wrapped by the except at 687-690
            Except.error ("Failed to fetch recording: "
              ++ "Recording not completed after 30 seconds (status: "
              ++ info.finalStatus ++ ")")
          else
          match mediaUrlOf info with
          | none => Except.error "No media URL found for recording"
          | some _mediaUrl =>
              match downloadLoop [env.download1, env.download2, env.download3] with
              | Except.error e => Except.error e
              | Except.ok _audio =>
                  match env.whisper with
                  | Except.error e =>
                      Except.error ("OpenAI transcription failed: " ++ e)
                  | Except.ok t => Except.ok (pyStripWs t)

/-- `services.py:634-801` — `TranscriptionService.transcribe_audio`: the
outermost `try`/`except` converts every raise into the returned string
`"Transcription failed: " ++ message`. -/
def transcribeAudio (env : TranscribeEnv) (audioUrl : String) : String :=
  match transcribeAudioInner env audioUrl with
  | Except.ok t => t
  | Except.error e => "Transcription failed: " ++ e

/-! ## `models.py` — the relational state

Records are held in lists standing for the database tables.  UUIDs are
modelled as `Nat`, timestamps as `Nat` minutes, floating-point scores as
`Rat` (no claim depends on float rounding). -/

/-- `models.py:49-54` — `Interview.STATUS_CHOICES`. -/
inductive IStatus where
  | pending
  | in_progress
  | completed
  | failed
  deriving DecidableEq

/-- `models.py:47-68` — the `Interview` row.  `questions` inlines the
`job_description.questions` JSON field the handlers read through the
foreign key. -/
structure Interview where
  id : Nat
  candidateId : Nat
  questions : List String
  status : IStatus
  callSid : Option String
  recordingSid : Option String
  audioUrl : Option String
  duration : Option Nat
  createdAt : Nat
  completedAt : Option Nat
  deriving DecidableEq

/-- `models.py:71-87` — the `InterviewResponse` row. -/
structure QResponse where
  interviewId : Nat
  questionNumber : Nat
  question : String
  transcript : String
  audioUrl : Option String
  score : Option Rat
  feedback : String
  deriving DecidableEq

/-- `models.py:90-101` — the `InterviewResult` row.  The `interview` field is
a `OneToOneField`, i.e. the database enforces at most one row per interview;
a second `create` raises `IntegrityError`. -/
structure ResultRec where
  interviewId : Nat
  overallScore : Rat
  recommendation : String
  strengths : List String
  areasForImprovement : List String
  deriving DecidableEq

/-- The database state the webhook handlers operate on. -/
structure DB where
  interviews : List Interview
  responses : List QResponse
  results : List ResultRec
  deriving DecidableEq

/-- `InterviewResponse.objects.filter(interview=...)` membership test. -/
def respOf (iid : Nat) (r : QResponse) : Bool := r.interviewId == iid

/-- `InterviewResponse.objects.filter(interview=..., question_number=...)`. -/
def respMatches (iid qn : Nat) (r : QResponse) : Bool :=
  r.interviewId == iid && r.questionNumber == qn

/-- `InterviewResponse.objects.filter(interview=interview).count()`. -/
def countResponses (db : DB) (iid : Nat) : Nat :=
  (db.responses.filter (respOf iid)).length

/-- Number of `InterviewResponse` rows for one (interview, question number). -/
def countQResponses (db : DB) (iid qn : Nat) : Nat :=
  (db.responses.filter (respMatches iid qn)).length

/-- Number of `InterviewResult` rows for one interview. -/
def countResults (db : DB) (iid : Nat) : Nat :=
  (db.results.filter (fun r => r.interviewId == iid)).length

/-- The status of the interview the ORM would return for `id=iid`. -/
def statusOf (db : DB) (iid : Nat) : Option IStatus :=
  (db.interviews.find? (fun i => i.id == iid)).map Interview.status

/-- `interview.save()` after mutating fields: replace the row(s) with id
`iid` by `f` applied to them. -/
def updateInterview (db : DB) (iid : Nat) (f : Interview → Interview) : DB :=
  { db with interviews := db.interviews.map (fun i => if i.id == iid then f i else i) }

/-- `response_obj.save()` after mutating fields of the response for
(`iid`, `qn`). -/
def updateQResponse (db : DB) (iid qn : Nat) (f : QResponse → QResponse) : DB :=
  { db with responses := db.responses.map (fun r => if respMatches iid qn r then f r else r) }

/-! ## `views.py` — `TwilioWebhookView` -/

/-- The data `openai_service.generate_final_recommendation` comes back with.
The source function (`services.py:252-340`) catches every provider and parse
failure and returns a default dictionary, so it always yields a value; its
output (after the `.get(...)` defaulting at `views.py:768-771`) is supplied
by the environment. -/
structure ResultData where
  overallScore : Rat
  recommendation : String
  strengths : List String
  areasForImprovement : List String
  deriving DecidableEq

/-- `views.py:755-774` — `TwilioWebhookView.generate_final_results`: no-op if
the session has no responses; otherwise create the `InterviewResult`.  The
`OneToOneField` unique constraint makes the `create` raise `IntegrityError`
when a result already exists, which the `except` at `views.py:773` swallows,
leaving the database unchanged. -/
def generateFinalResults (db : DB) (iid : Nat) (rec : ResultData) : DB :=
  if (db.responses.filter (respOf iid)).isEmpty then db
  else if (db.results.filter (fun r => r.interviewId == iid)).isEmpty then
    { db with results := db.results ++
        [ { interviewId := iid
          , overallScore := rec.overallScore
          , recommendation := rec.recommendation
          , strengths := rec.strengths
          , areasForImprovement := rec.areasForImprovement } ] }
  else db

/-- The form fields of a call-status callback (`views.py:653-657`). -/
structure CallStatusCallback where
  callSid : String
  callStatus : String
  recordingUrl : Option String
  recordingSid : Option String
  callDuration : Option Nat
  deriving DecidableEq

/-- HTTP-level outcome of a webhook handler. -/
inductive HResp where
  /-- `HttpResponse(status=200)`. -/
  | ok200
  /-- `HttpResponse(status=404)` — unknown call SID. -/
  | notFound404
  /-- `HttpResponse(status=500)` / "Error processing response". -/
  | err500
  /-- The TwiML thank-you-and-hangup response of `views.py:746-749`. -/
  | twimlHangup
  deriving DecidableEq

/-- The field assignments of `views.py:665-669` (successful completion). -/
def markCompletedCS (cb : CallStatusCallback) (now : Nat) (j : Interview) :
    Interview :=
  { j with status := IStatus.completed
         , audioUrl := cb.recordingUrl
         , recordingSid := cb.recordingSid
         , duration := cb.callDuration
         , completedAt := some now }

/-- The field assignments of `views.py:673-674` / `views.py:677-678`
(transition to failed). -/
def markFailed (now : Nat) (j : Interview) : Interview :=
  { j with status := IStatus.failed, completedAt := some now }

/-- `views.py:652-687` — `TwilioWebhookView.handle_call_status`.  `now` is
`timezone.now()`; `rec` supplies the aggregate-recommendation data used if
final results are generated. -/
def handleCallStatus (db : DB) (cb : CallStatusCallback) (now : Nat)
    (rec : ResultData) : HResp × DB :=
  match db.interviews.find? (fun i => i.callSid == some cb.callSid) with
  | none => (HResp.notFound404, db)
  | some i =>
      if cb.callStatus = "completed" then
        let answered := countResponses db i.id
        if 1 ≤ answered then
          let db1 := updateInterview db i.id (markCompletedCS cb now)
          (HResp.ok200, generateFinalResults db1 i.id rec)
        else
          (HResp.ok200, updateInterview db i.id (markFailed now))
      else if cb.callStatus = "failed" ∨ cb.callStatus = "busy"
          ∨ cb.callStatus = "no-answer" then
        (HResp.ok200, updateInterview db i.id (markFailed now))
      else
        (HResp.ok200, db)

/-- The request data of a recording callback: `interview_id` and
`question_number` from the query string, the recording fields from the form
body (`views.py:692-699`). -/
structure RecordCallback where
  interviewId : Nat
  questionNumber : Nat
  recordingUrl : String
  recordingSid : String
  deriving DecidableEq

/-- Environment for one `handle_record_response` run: the transcription
environment, the per-answer analysis outcome (the source
`analyze_response` (`services.py:200-250`) catches every failure and returns
a default `(5.0, message)` pair, so it always yields a pair), the
aggregate-recommendation data and the current time. -/
structure RecordEnv where
  trans : TranscribeEnv
  analysisScore : Rat
  analysisFeedback : String
  recData : ResultData
  now : Nat
  deriving DecidableEq

/-- The `defaults` of the `get_or_create` at `views.py:706-710`: a fresh
`InterviewResponse` row with the "Processing..." sentinel transcript. -/
def newResponse (iid qn : Nat) (questionText : String) : QResponse :=
  { interviewId := iid
  , questionNumber := qn
  , question := questionText
  , transcript := "Processing..."
  , audioUrl := none
  , score := none
  , feedback := "" }

/-- `response_obj.audio_url = recording_url` (`views.py:711`). -/
def setAudioUrl (url : String) (r : QResponse) : QResponse :=
  { r with audioUrl := some url }

/-- `response_obj.transcript = transcript` (`views.py:718`). -/
def setTranscript (t : String) (r : QResponse) : QResponse :=
  { r with transcript := t }

/-- `response_obj.score = score; response_obj.feedback = feedback`
(`views.py:733-734`). -/
def setAnalysis (score : Rat) (feedback : String) (r : QResponse) : QResponse :=
  { r with score := some score, feedback := feedback }

/-- `interview.status = 'completed'; interview.completed_at = ...`
(`views.py:740-741`). -/
def markCompletedRR (now : Nat) (j : Interview) : Interview :=
  { j with status := IStatus.completed, completedAt := some now }

/-- `views.py:689-753` — `TwilioWebhookView.handle_record_response`.
An unknown interview id makes `get_object_or_404` raise, which the outer
`except` turns into the 500 response.  Otherwise: resolve the question text
(`views.py:701-704`; the generated callback URLs always carry
`question_number=1`, so the 1-based indexing is taken at face value),
get-or-create the response row keyed on (interview, question number), store
the audio URL, the transcript (`transcribe_audio` never raises, so the
"Unable to transcribe audio" except-branch at `views.py:722` is dead code),
and the analysis score/feedback; then mark the interview completed, generate
final results, and answer with the hangup TwiML. -/
def handleRecordResponse (db : DB) (cb : RecordCallback) (env : RecordEnv) :
    HResp × DB :=
  match db.interviews.find? (fun i => i.id == cb.interviewId) with
  | none => (HResp.err500, db)
  | some i =>
      let questions := i.questions
      let qn := cb.questionNumber
      let questionText :=
        if 1 ≤ qn ∧ qn ≤ questions.length then questions.getD (qn - 1) ""
        else "Question " ++ toString qn
      -- InterviewResponse.objects.get_or_create (views.py:706-710)
      let db1 :=
        if (db.responses.find? (respMatches i.id qn)).isSome then db
        else { db with responses := db.responses ++ [newResponse i.id qn questionText] }
      -- response_obj.audio_url = recording_url; save (views.py:711-712)
      let db2 := updateQResponse db1 i.id qn (setAudioUrl cb.recordingUrl)
      -- transcription (views.py:715-719)
      let transcript := transcribeAudio env.trans cb.recordingUrl
      let db3 := updateQResponse db2 i.id qn (setTranscript transcript)
      -- analysis (views.py:726-735)
      let db4 := updateQResponse db3 i.id qn
        (setAnalysis env.analysisScore env.analysisFeedback)
      -- mark interview completed (views.py:740-742)
      let db5 := updateInterview db4 i.id (markCompletedRR env.now)
      let db6 := generateFinalResults db5 i.id env.recData
      (HResp.twimlHangup, db6)

/-! ## `views.py` — `JDToQuestionsView` -/

/-- A `JobDescription` row (`models.py:35-44`). -/
structure JDRec where
  id : Nat
  title : String
  description : String
  questions : List String
  deriving DecidableEq

/-- The `JobDescription` table. -/
structure JDB where
  jds : List JDRec
  deriving DecidableEq

/-- Outcome of `JDToQuestionsView.post`. -/
inductive JDPostResp where
  /-- HTTP 200 "Job description already exists" with the existing record. -/
  | okExisting (id : Nat) (questions : List String)
  /-- HTTP 500 "Failed to save job description...". -/
  | saveError
  deriving DecidableEq

/-- `views.py:47-114` — `JDToQuestionsView.post` on valid serializer data.
Returns (response, table, provider-invoked?).  A case-insensitive match on
(title, description) (`views.py:60-62`) short-circuits to the existing
record without calling the generator.  Otherwise the generator is invoked
(it never raises, see `generateQuestionsFromJd`), and then the save block at
`views.py:91-98` executes `with transaction.atomic():` — but `transaction`
is never imported in `views.py`, so this line raises `NameError`, the
`except` at `views.py:99` catches it, and the view returns HTTP 500 with no
record created. -/
def jdToQuestionsPost (db : JDB) (title description : String) (env : GenEnv) :
    JDPostResp × JDB × Bool :=
  match db.jds.find? (fun jd =>
      pyToLower jd.title == pyToLower title
        && pyToLower jd.description == pyToLower description) with
  | some jd => (JDPostResp.okExisting jd.id jd.questions, db, false)
  | none =>
      let _questions := generateQuestionsFromJd title description env
      (JDPostResp.saveError, db, true)

/-! ## `fix_stuck_interviews.py` — the stuck-session sweep -/

/-- The per-interview step of `fix_stuck_interviews` (lines 24-48): an
interview selected by the filter (`status='in_progress'` and
`created_at < now - 10 minutes`) with no responses is marked failed;
everything else is left untouched. -/
def sweepOne (db : DB) (now : Nat) (i : Interview) : Interview :=
  if i.status = IStatus.in_progress ∧ i.createdAt + 10 < now
      ∧ countResponses db i.id = 0 then
    { i with status := IStatus.failed, completedAt := some now }
  else i

/-- `fix_stuck_interviews.py:19-54` — the sweep over the whole table.
Responses are never modified by the sweep, so the one-pass map matches the
source's iterate-and-save loop. -/
def fixStuckInterviews (db : DB) (now : Nat) : DB :=
  { db with interviews := db.interviews.map (sweepOne db now) }

/-! ## General list lemmas

Maps that do not disturb a predicate commute with `find?` and preserve
`filter`-counts; these capture that the handlers' row updates never change a
row's key fields. -/

theorem find?_map_pred {α : Type} (g : α → α) (p : α → Bool)
    (h : ∀ a, p (g a) = p a) (l : List α) :
    (l.map g).find? p = (l.find? p).map g := by
  induction l with
  | nil => rfl
  | cons a tl ih =>
      cases hp : p a with
      | true => simp [List.find?, hp, h a]
      | false => simp [List.find?, hp, h a, ih]

theorem length_filter_map_pred {α : Type} (g : α → α) (p : α → Bool)
    (h : ∀ a, p (g a) = p a) (l : List α) :
    ((l.map g).filter p).length = (l.filter p).length := by
  induction l with
  | nil => rfl
  | cons a tl ih =>
      cases hp : p a with
      | true => simp [List.filter, hp, h a, ih]
      | false => simp [List.filter, hp, h a, ih]

theorem find?_append_right {α : Type} (p : α → Bool) (l : List α) (x : α)
    (hl : l.find? p = none) (hx : p x = true) :
    (l ++ [x]).find? p = some x := by
  induction l with
  | nil => simp [List.find?, hx]
  | cons a tl ih =>
      cases hp : p a with
      | true => simp [List.find?, hp] at hl
      | false =>
          simp only [List.cons_append, List.find?, hp] at hl ⊢
          exact ih hl

/-! ## Projection lemmas for the state operations -/

theorem updateQResponse_interviews (db : DB) (iid qn : Nat)
    (f : QResponse → QResponse) :
    (updateQResponse db iid qn f).interviews = db.interviews := rfl

theorem updateQResponse_results (db : DB) (iid qn : Nat)
    (f : QResponse → QResponse) :
    (updateQResponse db iid qn f).results = db.results := rfl

theorem updateInterview_responses (db : DB) (iid : Nat)
    (f : Interview → Interview) :
    (updateInterview db iid f).responses = db.responses := rfl

theorem updateInterview_results (db : DB) (iid : Nat)
    (f : Interview → Interview) :
    (updateInterview db iid f).results = db.results := rfl

theorem generateFinalResults_interviews (db : DB) (iid : Nat)
    (rec : ResultData) :
    (generateFinalResults db iid rec).interviews = db.interviews := by
  unfold generateFinalResults
  split
  · rfl
  · split <;> rfl

theorem generateFinalResults_responses (db : DB) (iid : Nat)
    (rec : ResultData) :
    (generateFinalResults db iid rec).responses = db.responses := by
  unfold generateFinalResults
  split
  · rfl
  · split <;> rfl

theorem statusOf_generateFinalResults (db : DB) (iid : Nat) (rec : ResultData)
    (iid' : Nat) :
    statusOf (generateFinalResults db iid rec) iid' = statusOf db iid' := by
  unfold statusOf
  rw [generateFinalResults_interviews]

theorem statusOf_updateInterview (db : DB) (jid : Nat) (f : Interview → Interview)
    (hf : ∀ j, (f j).id = j.id) (iid : Nat) :
    statusOf (updateInterview db jid f) iid =
      (db.interviews.find? (fun i => i.id == iid)).map
        (fun j => if j.id == jid then (f j).status else j.status) := by
  unfold statusOf updateInterview
  rw [find?_map_pred (fun i => if i.id == jid then f i else i)
        (fun i => i.id == iid)
        (fun a => by cases h : a.id == jid <;> simp [h, hf a])]
  rw [Option.map_map]
  congr 1
  funext j
  cases h : j.id == jid <;> simp [Function.comp, h]

/-- An `updateInterview` step that only ever assigns terminal statuses leaves
every session either with its old status or with a terminal one. -/
theorem statusOf_update_terminal (db : DB) (jid iid : Nat)
    (f : Interview → Interview) (hfid : ∀ j, (f j).id = j.id)
    (hfst : ∀ j, (f j).status = IStatus.completed ∨ (f j).status = IStatus.failed)
    (st' : IStatus) (h : statusOf (updateInterview db jid f) iid = some st') :
    statusOf db iid = some st' ∨ st' = IStatus.completed ∨ st' = IStatus.failed := by
  rw [statusOf_updateInterview db jid f hfid iid] at h
  cases hj : db.interviews.find? (fun j => j.id == iid) with
  | none => rw [hj] at h; simp at h
  | some j0 =>
      rw [hj] at h
      simp only [Option.map_some'] at h
      cases hid : j0.id == jid with
      | true =>
          rw [if_pos (by rw [hid])] at h
          exact Or.inr ((Option.some.inj h) ▸ hfst j0)
      | false =>
          rw [if_neg (by rw [hid]; exact Bool.false_ne_true)] at h
          refine Or.inl ?_
          unfold statusOf
          rw [hj]
          exact congrArg _ (Option.some.inj h)

/-- Whatever a call-status callback does, the status it leaves a session with
is either the status the session already had, or one of the two terminal
statuses the handler assigns. -/
theorem statusOf_handleCallStatus_cases (db : DB) (cb : CallStatusCallback)
    (now : Nat) (rec : ResultData) (iid : Nat) (st' : IStatus)
    (h : statusOf (handleCallStatus db cb now rec).2 iid = some st') :
    statusOf db iid = some st' ∨ st' = IStatus.completed ∨ st' = IStatus.failed := by
  unfold handleCallStatus at h
  cases hfind : db.interviews.find? (fun i => i.callSid == some cb.callSid) with
  | none =>
      rw [hfind] at h
      exact Or.inl h
  | some i =>
      rw [hfind] at h
      dsimp only at h
      by_cases hc : cb.callStatus = "completed"
      · rw [if_pos hc] at h
        by_cases ha : 1 ≤ countResponses db i.id
        · rw [if_pos ha] at h
          rw [statusOf_generateFinalResults] at h
          exact statusOf_update_terminal db i.id iid (markCompletedCS cb now)
            (fun j => rfl) (fun j => Or.inl rfl) st' h
        · rw [if_neg ha] at h
          exact statusOf_update_terminal db i.id iid (markFailed now)
            (fun j => rfl) (fun j => Or.inr rfl) st' h
      · rw [if_neg hc] at h
        by_cases hf : cb.callStatus = "failed" ∨ cb.callStatus = "busy"
            ∨ cb.callStatus = "no-answer"
        · rw [if_pos hf] at h
          exact statusOf_update_terminal db i.id iid (markFailed now)
            (fun j => rfl) (fun j => Or.inr rfl) st' h
        · rw [if_neg hf] at h
          exact Or.inl h

theorem statusOf_updateQResponse (db : DB) (iid qn : Nat)
    (f : QResponse → QResponse) (iid' : Nat) :
    statusOf (updateQResponse db iid qn f) iid' = statusOf db iid' := rfl

theorem statusOf_getOrCreate (db : DB) (c : Prop) [Decidable c]
    (rs : List QResponse) (iid : Nat) :
    statusOf (if c then db else { db with responses := rs }) iid
      = statusOf db iid := by
  split <;> rfl

/-- Whatever a recording callback does, the status it leaves a session with
is either the status the session already had, or a terminal one. -/
theorem statusOf_handleRecordResponse_cases (db : DB) (cb : RecordCallback)
    (env : RecordEnv) (iid : Nat) (st' : IStatus)
    (h : statusOf (handleRecordResponse db cb env).2 iid = some st') :
    statusOf db iid = some st' ∨ st' = IStatus.completed ∨ st' = IStatus.failed := by
  unfold handleRecordResponse at h
  cases hfind : db.interviews.find? (fun i => i.id == cb.interviewId) with
  | none =>
      rw [hfind] at h
      exact Or.inl h
  | some i =>
      rw [hfind] at h
      dsimp only at h
      rw [statusOf_generateFinalResults] at h
      rcases statusOf_update_terminal _ i.id iid (markCompletedRR env.now)
          (fun j => rfl) (fun j => Or.inl rfl) st' h with h' | hterm
      · rw [statusOf_updateQResponse, statusOf_updateQResponse,
          statusOf_updateQResponse, statusOf_getOrCreate] at h'
        exact Or.inl h'
      · exact Or.inr hterm

/-! ## Claim C1 — terminal-state immutability

The claim as stated is false: `handle_call_status` never checks the current
status, so a `failed` call-status callback delivered after a session has
completed moves it from `completed` to `failed` (`views.py:676-679`).  What
does hold is that a terminal session can never be moved back to a
non-terminal status by any callback. -/

/-- A session that completed (one answered question, result generated). -/
def c1interview : Interview :=
  { id := 1, candidateId := 7, questions := ["q1"]
  , status := IStatus.completed, callSid := some "CA1"
  , recordingSid := none, audioUrl := none, duration := none
  , createdAt := 0, completedAt := some 5 }

def c1response : QResponse :=
  { interviewId := 1, questionNumber := 1, question := "q1"
  , transcript := "an answer", audioUrl := none, score := none, feedback := "" }

def c1result : ResultRec :=
  { interviewId := 1, overallScore := 5, recommendation := "Consider"
  , strengths := [], areasForImprovement := [] }

def c1db : DB :=
  { interviews := [c1interview], responses := [c1response], results := [c1result] }

def c1rd : ResultData :=
  { overallScore := 5, recommendation := "Consider"
  , strengths := [], areasForImprovement := [] }

/-- A late call-status callback reporting `failed` for the same call. -/
def c1cbFailed : CallStatusCallback :=
  { callSid := "CA1", callStatus := "failed", recordingUrl := none
  , recordingSid := none, callDuration := none }

/-- A duplicate call-status callback reporting `completed`. -/
def c1cbCompleted : CallStatusCallback :=
  { callSid := "CA1", callStatus := "completed", recordingUrl := none
  , recordingSid := none, callDuration := none }

/-- C1 counterexample: a session whose status is `completed` receives a
subsequent call-status callback with status `failed`, and its status changes
to `failed` — the claimed terminal-state immutability does not hold on the
code. -/
theorem C1_counterexample :
    statusOf c1db 1 = some IStatus.completed ∧
    statusOf (handleCallStatus c1db c1cbFailed 30 c1rd).2 1 = some IStatus.failed := by
  exact ⟨rfl, rfl⟩

/-- C1 (amended): once a session is `completed` or `failed`, every
subsequently delivered callback — call-status or recording-ready — leaves it
with a terminal status: it is never un-terminated (moved back to `pending`
or `in_progress`), although it can be moved to the other terminal state. -/
theorem C1_terminal_never_unterminated (db : DB) (iid : Nat) (st : IStatus)
    (hst : statusOf db iid = some st)
    (hterm : st = IStatus.completed ∨ st = IStatus.failed) :
    (∀ cb now rec st',
        statusOf (handleCallStatus db cb now rec).2 iid = some st' →
        st' = IStatus.completed ∨ st' = IStatus.failed) ∧
    (∀ cb env st',
        statusOf (handleRecordResponse db cb env).2 iid = some st' →
        st' = IStatus.completed ∨ st' = IStatus.failed) := by
  constructor
  · intro cb now rec st' h
    rcases statusOf_handleCallStatus_cases db cb now rec iid st' h with h' | ht
    · exact Option.some.inj (hst.symm.trans h') ▸ hterm
    · exact ht
  · intro cb env st' h
    rcases statusOf_handleRecordResponse_cases db cb env iid st' h with h' | ht
    · exact Option.some.inj (hst.symm.trans h') ▸ hterm
    · exact ht

/-- C1 witness: the amended theorem applied to the concrete completed
session and a duplicate `completed` callback. -/
theorem C1_witness :
    statusOf c1db 1 = some IStatus.completed ∧
    (IStatus.completed = IStatus.completed ∨ IStatus.completed = IStatus.failed) := by
  refine ⟨rfl, ?_⟩
  exact (C1_terminal_never_unterminated c1db 1 IStatus.completed rfl
    (Or.inl rfl)).1 c1cbCompleted 30 c1rd IStatus.completed rfl

/-! ## Claim C4 — completion threshold

The handler compares the response count against the constant `1`
(`views.py:663-664`), not against the number of expected questions, so with
2 expected questions and 1 recorded response a `completed` call-status
callback still completes the session — the claim's "count ≥ N" threshold is
wrong for every N ≥ 2. -/

/-- If every row the update touches gets status `stc` and a row with the
updated id exists, the updated session's status is `stc`. -/
theorem statusOf_update_self (db : DB) (jid : Nat) (f : Interview → Interview)
    (hfid : ∀ j, (f j).id = j.id) (stc : IStatus) (hfst : ∀ j, (f j).status = stc)
    (hex : (db.interviews.find? (fun j => j.id == jid)).isSome) :
    statusOf (updateInterview db jid f) jid = some stc := by
  rw [statusOf_updateInterview db jid f hfid jid]
  cases hj : db.interviews.find? (fun j => j.id == jid) with
  | none => rw [hj] at hex; simp at hex
  | some j0 =>
      have hid := List.find?_some hj
      simp only at hid
      simp only [Option.map_some']
      rw [if_pos hid, hfst j0]

/-- C4 (amended): on a terminal call-status callback with status
`completed`, the session transitions to `completed` exactly when at least
one ResponseRecord exists at that moment (the threshold is the constant 1,
independently of the number of expected questions), and to `failed` when
none exists; a callback with status `failed`, `busy` or `no-answer`
transitions it directly to `failed`. -/
theorem C4_threshold_is_one (db : DB) (cb : CallStatusCallback) (now : Nat)
    (rec : ResultData) (i : Interview)
    (hfind : db.interviews.find? (fun j => j.callSid == some cb.callSid) = some i) :
    (cb.callStatus = "completed" →
      (1 ≤ countResponses db i.id →
        statusOf (handleCallStatus db cb now rec).2 i.id = some IStatus.completed) ∧
      (countResponses db i.id = 0 →
        statusOf (handleCallStatus db cb now rec).2 i.id = some IStatus.failed)) ∧
    ((cb.callStatus = "failed" ∨ cb.callStatus = "busy"
        ∨ cb.callStatus = "no-answer") →
      statusOf (handleCallStatus db cb now rec).2 i.id = some IStatus.failed) := by
  have hmem : i ∈ db.interviews := List.mem_of_find?_eq_some hfind
  have hex : (db.interviews.find? (fun j => j.id == i.id)).isSome :=
    List.find?_isSome.mpr ⟨i, hmem, by simp⟩
  unfold handleCallStatus
  rw [hfind]
  dsimp only
  constructor
  · intro hc
    rw [if_pos hc]
    constructor
    · intro ha
      rw [if_pos ha]
      dsimp only
      rw [statusOf_generateFinalResults]
      exact statusOf_update_self db i.id (markCompletedCS cb now) (fun j => rfl)
        IStatus.completed (fun j => rfl) hex
    · intro ha0
      rw [if_neg (by omega)]
      dsimp only
      exact statusOf_update_self db i.id (markFailed now) (fun j => rfl)
        IStatus.failed (fun j => rfl) hex
  · intro hf
    have hc : ¬ cb.callStatus = "completed" := by
      rcases hf with h | h | h <;> rw [h] <;> decide
    rw [if_neg hc, if_pos hf]
    dsimp only
    exact statusOf_update_self db i.id (markFailed now) (fun j => rfl)
      IStatus.failed (fun j => rfl) hex

/-- A session with two expected questions but only one recorded response. -/
def c4interview : Interview :=
  { id := 1, candidateId := 7, questions := ["q1", "q2"]
  , status := IStatus.in_progress, callSid := some "CA1"
  , recordingSid := none, audioUrl := none, duration := none
  , createdAt := 0, completedAt := none }

def c4response : QResponse :=
  { interviewId := 1, questionNumber := 1, question := "q1"
  , transcript := "an answer", audioUrl := none, score := none, feedback := "" }

def c4db : DB :=
  { interviews := [c4interview], responses := [c4response], results := [] }

def c4rd : ResultData :=
  { overallScore := 5, recommendation := "Consider"
  , strengths := [], areasForImprovement := [] }

def c4cb : CallStatusCallback :=
  { callSid := "CA1", callStatus := "completed", recordingUrl := none
  , recordingSid := none, callDuration := some 60 }

/-- C4 counterexample: N = 2 expected questions, only 1 ResponseRecord when
the terminal `completed` callback arrives (1 < 2), yet the session
transitions to `completed` — refuting the claimed "completed iff count ≥ N"
threshold. -/
theorem C4_counterexample :
    c4interview.questions.length = 2 ∧
    countResponses c4db 1 = 1 ∧
    c4cb.callStatus = "completed" ∧
    statusOf (handleCallStatus c4db c4cb 30 c4rd).2 1 = some IStatus.completed := by
  exact ⟨rfl, rfl, rfl, rfl⟩

/-- C4 witness: the amended theorem applied to the concrete session. -/
theorem C4_witness :
    (1 : Nat) ≤ countResponses c4db 1 ∧
    statusOf (handleCallStatus c4db c4cb 30 c4rd).2 1 = some IStatus.completed := by
  refine ⟨by decide, ?_⟩
  exact ((C4_threshold_is_one c4db c4cb 30 c4rd c4interview rfl).1 rfl).1 (by decide)

/-! ## Counting lemmas for response rows -/

theorem find?_eq_none_of_countQ_zero (db : DB) (iid qn : Nat)
    (h : countQResponses db iid qn = 0) :
    db.responses.find? (respMatches iid qn) = none := by
  rw [List.find?_eq_none]
  intro x hx hpx
  have hmem : x ∈ db.responses.filter (respMatches iid qn) :=
    List.mem_filter.mpr ⟨hx, hpx⟩
  unfold countQResponses at h
  rw [List.length_eq_zero] at h
  rw [h] at hmem
  simp at hmem

theorem find?_isSome_of_countQ_pos (db : DB) (iid qn : Nat)
    (h : 1 ≤ countQResponses db iid qn) :
    (db.responses.find? (respMatches iid qn)).isSome := by
  unfold countQResponses at h
  have hlen : 0 < (db.responses.filter (respMatches iid qn)).length := h
  rcases List.exists_mem_of_length_pos hlen with ⟨r, hr⟩
  rcases List.mem_filter.mp hr with ⟨hrmem, hrp⟩
  exact List.find?_isSome.mpr ⟨r, hrmem, hrp⟩

theorem countQResponses_updateQResponse (db : DB) (iid qn : Nat)
    (f : QResponse → QResponse)
    (hf : ∀ r, (f r).interviewId = r.interviewId
      ∧ (f r).questionNumber = r.questionNumber) (iid' qn' : Nat) :
    countQResponses (updateQResponse db iid qn f) iid' qn'
      = countQResponses db iid' qn' := by
  unfold countQResponses updateQResponse
  exact length_filter_map_pred _ _
    (fun r => by
      cases h : respMatches iid qn r <;>
        simp [h, respMatches, (hf r).1, (hf r).2]) _

@[simp] theorem countQ_setAudioUrl (db : DB) (iid qn : Nat) (u : String)
    (iid' qn' : Nat) :
    countQResponses (updateQResponse db iid qn (setAudioUrl u)) iid' qn'
      = countQResponses db iid' qn' :=
  countQResponses_updateQResponse db iid qn (setAudioUrl u)
    (fun _ => ⟨rfl, rfl⟩) iid' qn'

@[simp] theorem countQ_setTranscript (db : DB) (iid qn : Nat) (t : String)
    (iid' qn' : Nat) :
    countQResponses (updateQResponse db iid qn (setTranscript t)) iid' qn'
      = countQResponses db iid' qn' :=
  countQResponses_updateQResponse db iid qn (setTranscript t)
    (fun _ => ⟨rfl, rfl⟩) iid' qn'

@[simp] theorem countQ_setAnalysis (db : DB) (iid qn : Nat) (sc : Rat)
    (fb : String) (iid' qn' : Nat) :
    countQResponses (updateQResponse db iid qn (setAnalysis sc fb)) iid' qn'
      = countQResponses db iid' qn' :=
  countQResponses_updateQResponse db iid qn (setAnalysis sc fb)
    (fun _ => ⟨rfl, rfl⟩) iid' qn'

@[simp] theorem countQ_updateInterview (db : DB) (jid : Nat)
    (f : Interview → Interview) (iid' qn' : Nat) :
    countQResponses (updateInterview db jid f) iid' qn'
      = countQResponses db iid' qn' := rfl

@[simp] theorem countQ_generateFinalResults (db : DB) (iid : Nat)
    (rec : ResultData) (iid' qn' : Nat) :
    countQResponses (generateFinalResults db iid rec) iid' qn'
      = countQResponses db iid' qn' := by
  unfold countQResponses
  rw [generateFinalResults_responses]

theorem countQ_append_matching (db : DB) (iid qn : Nat) (x : QResponse)
    (hx : respMatches iid qn x = true) :
    countQResponses { db with responses := db.responses ++ [x] } iid qn
      = countQResponses db iid qn + 1 := by
  unfold countQResponses
  simp [List.filter_append, hx]

@[simp] theorem responses_length_updateQResponse (db : DB) (iid qn : Nat)
    (f : QResponse → QResponse) :
    (updateQResponse db iid qn f).responses.length = db.responses.length := by
  unfold updateQResponse
  exact List.length_map _ _

@[simp] theorem responses_length_updateInterview (db : DB) (jid : Nat)
    (f : Interview → Interview) :
    (updateInterview db jid f).responses.length = db.responses.length := rfl

@[simp] theorem responses_length_generateFinalResults (db : DB) (iid : Nat)
    (rec : ResultData) :
    (generateFinalResults db iid rec).responses.length = db.responses.length := by
  rw [generateFinalResults_responses]

/-! ## Effect of one recording callback on the stored rows -/

/-- A recording callback for a known session updates the interviews table by
marking exactly the rows with that session's id completed. -/
theorem handleRecordResponse_interviews (db : DB) (cb : RecordCallback)
    (env : RecordEnv) (i : Interview)
    (hfind : db.interviews.find? (fun j => j.id == cb.interviewId) = some i) :
    (handleRecordResponse db cb env).2.interviews =
      db.interviews.map
        (fun j => if j.id == i.id then markCompletedRR env.now j else j) := by
  unfold handleRecordResponse
  rw [hfind]
  dsimp only
  rw [generateFinalResults_interviews]
  unfold updateInterview
  dsimp only
  rw [updateQResponse_interviews, updateQResponse_interviews,
    updateQResponse_interviews]
  congr 1
  split <;> rfl

/-- First delivery for a (session, question) pair with no existing row:
exactly one row afterwards, by insertion. -/
theorem handleRecordResponse_countQ_zero (db : DB) (cb : RecordCallback)
    (env : RecordEnv) (i : Interview)
    (hfind : db.interviews.find? (fun j => j.id == cb.interviewId) = some i)
    (hzero : countQResponses db i.id cb.questionNumber = 0) :
    countQResponses (handleRecordResponse db cb env).2 i.id cb.questionNumber = 1 ∧
    (handleRecordResponse db cb env).2.responses.length
      = db.responses.length + 1 := by
  have hnone := find?_eq_none_of_countQ_zero db i.id cb.questionNumber hzero
  unfold handleRecordResponse
  rw [hfind]
  dsimp only
  rw [if_neg (by rw [hnone]; simp)]
  constructor
  · simp only [countQ_generateFinalResults, countQ_updateInterview,
      countQ_setAnalysis, countQ_setTranscript, countQ_setAudioUrl]
    rw [countQ_append_matching db i.id cb.questionNumber _
      (by simp [respMatches, newResponse])]
    rw [hzero]
  · simp only [responses_length_generateFinalResults,
      responses_length_updateInterview, responses_length_updateQResponse]
    simp

/-- Re-delivery when a row already exists: no insertion, count unchanged,
table length unchanged. -/
theorem handleRecordResponse_countQ_pos (db : DB) (cb : RecordCallback)
    (env : RecordEnv) (i : Interview)
    (hfind : db.interviews.find? (fun j => j.id == cb.interviewId) = some i)
    (hpos : 1 ≤ countQResponses db i.id cb.questionNumber) :
    countQResponses (handleRecordResponse db cb env).2 i.id cb.questionNumber
      = countQResponses db i.id cb.questionNumber ∧
    (handleRecordResponse db cb env).2.responses.length
      = db.responses.length := by
  have hsome := find?_isSome_of_countQ_pos db i.id cb.questionNumber hpos
  unfold handleRecordResponse
  rw [hfind]
  dsimp only
  rw [if_pos hsome]
  constructor
  · simp only [countQ_generateFinalResults, countQ_updateInterview,
      countQ_setAnalysis, countQ_setTranscript, countQ_setAudioUrl]
  · simp only [responses_length_generateFinalResults,
      responses_length_updateInterview, responses_length_updateQResponse]

/-! ## Claim C2 — idempotence of recording callbacks -/

/-- C2: delivering the same recording-ready callback for (session, N) twice
— starting from a state with no ResponseRecord for that pair — leaves
exactly one ResponseRecord with question number N for that session, and the
second delivery inserts nothing (the responses table does not grow). -/
theorem C2_recording_idempotent (db : DB) (cb : RecordCallback)
    (env1 env2 : RecordEnv) (i : Interview)
    (hfind : db.interviews.find? (fun j => j.id == cb.interviewId) = some i)
    (hzero : countQResponses db i.id cb.questionNumber = 0) :
    countQResponses
      (handleRecordResponse (handleRecordResponse db cb env1).2 cb env2).2
      i.id cb.questionNumber = 1 ∧
    (handleRecordResponse (handleRecordResponse db cb env1).2 cb env2).2.responses.length
      = (handleRecordResponse db cb env1).2.responses.length := by
  obtain ⟨h1count, _h1len⟩ :=
    handleRecordResponse_countQ_zero db cb env1 i hfind hzero
  have hint := handleRecordResponse_interviews db cb env1 i hfind
  have hfindA : (handleRecordResponse db cb env1).2.interviews.find?
      (fun j => j.id == cb.interviewId) = some (markCompletedRR env1.now i) := by
    rw [hint]
    rw [find?_map_pred _ _
      (fun a => by cases h : a.id == i.id <;> simp [h, markCompletedRR]) _]
    rw [hfind]
    simp [markCompletedRR]
  have hposA : 1 ≤ countQResponses (handleRecordResponse db cb env1).2
      (markCompletedRR env1.now i).id cb.questionNumber := le_of_eq h1count.symm
  obtain ⟨h2count, h2len⟩ := handleRecordResponse_countQ_pos
    (handleRecordResponse db cb env1).2 cb env2 (markCompletedRR env1.now i)
    hfindA hposA
  exact ⟨h2count.trans h1count, h2len⟩

/-- A fresh in-progress session with no responses yet. -/
def c2interview : Interview :=
  { id := 1, candidateId := 7, questions := ["q1"]
  , status := IStatus.in_progress, callSid := some "CA1"
  , recordingSid := none, audioUrl := none, duration := none
  , createdAt := 0, completedAt := none }

def c2db : DB :=
  { interviews := [c2interview], responses := [], results := [] }

def c2tenv : TranscribeEnv :=
  { fetched := Except.ok
      { uri := some "/2010-04-01/Accounts/AC1/Recordings/RE00000000000000000000000000000001.json"
      , mediaLocation := none, finalStatus := "completed" }
  , download1 := DownloadOutcome.ok "bytes"
  , download2 := DownloadOutcome.ok "bytes"
  , download3 := DownloadOutcome.ok "bytes"
  , whisper := Except.ok "I led a platform migration." }

def c2rd : ResultData :=
  { overallScore := 7, recommendation := "Hire"
  , strengths := ["clear"], areasForImprovement := [] }

def c2env : RecordEnv :=
  { trans := c2tenv, analysisScore := 7, analysisFeedback := "good"
  , recData := c2rd, now := 9 }

def c2cb : RecordCallback :=
  { interviewId := 1, questionNumber := 1
  , recordingUrl := "https://api.twilio.com/2010-04-01/Accounts/AC1/Recordings/RE00000000000000000000000000000001"
  , recordingSid := "RE00000000000000000000000000000001" }

/-- C2 witness: the theorem applied to a concrete fresh session and a
concrete duplicated callback. -/
theorem C2_witness :
    countQResponses c2db 1 1 = 0 ∧
    countQResponses
      (handleRecordResponse (handleRecordResponse c2db c2cb c2env).2 c2cb c2env).2
      1 1 = 1 := by
  refine ⟨rfl, ?_⟩
  exact (C2_recording_idempotent c2db c2cb c2env c2env c2interview rfl rfl).1

/-! ## Claim C3 — exactly-once result generation -/

theorem countResults_append_matching (db : DB) (iid : Nat) (x : ResultRec)
    (hx : (x.interviewId == iid) = true) :
    countResults { db with results := db.results ++ [x] } iid
      = countResults db iid + 1 := by
  unfold countResults
  simp [List.filter_append, hx]

/-- `generate_final_results` with no responses is a no-op (`views.py:757-758`). -/
theorem gFR_of_no_responses (db : DB) (iid : Nat) (rec : ResultData)
    (h : db.responses.filter (respOf iid) = []) :
    generateFinalResults db iid rec = db := by
  unfold generateFinalResults
  rw [if_pos (by rw [h]; rfl)]

/-- `generate_final_results` with responses and no existing result inserts
the one result row. -/
theorem gFR_inserts (db : DB) (iid : Nat) (rec : ResultData)
    (hne : db.responses.filter (respOf iid) ≠ [])
    (h0 : db.results.filter (fun r => r.interviewId == iid) = []) :
    generateFinalResults db iid rec = { db with results := db.results ++
      [ { interviewId := iid
        , overallScore := rec.overallScore
        , recommendation := rec.recommendation
        , strengths := rec.strengths
        , areasForImprovement := rec.areasForImprovement } ] } := by
  unfold generateFinalResults
  rw [if_neg (by simp [hne]), if_pos (by rw [h0]; rfl)]

/-- `generate_final_results` when a result already exists: the
`OneToOneField` constraint makes the `create` fail, the exception is
swallowed, nothing changes. -/
theorem gFR_of_result_exists (db : DB) (iid : Nat) (rec : ResultData)
    (h1 : db.results.filter (fun r => r.interviewId == iid) ≠ []) :
    generateFinalResults db iid rec = db := by
  unfold generateFinalResults
  split
  · rfl
  · rw [if_neg (by simp [h1])]

/-- C3: final-result generation is exactly-once.  (1) With no
ResponseRecords it creates nothing.  (2) Invoked twice for a session that
has responses and no result yet, exactly one InterviewResult exists
afterwards.  (3) It preserves the at-most-one-result-per-session invariant. -/
theorem C3_result_exactly_once (db : DB) (iid : Nat) (rec1 rec2 : ResultData) :
    (db.responses.filter (respOf iid) = [] →
      generateFinalResults db iid rec1 = db) ∧
    (db.responses.filter (respOf iid) ≠ [] → countResults db iid = 0 →
      countResults
        (generateFinalResults (generateFinalResults db iid rec1) iid rec2)
        iid = 1) ∧
    (countResults db iid ≤ 1 →
      countResults (generateFinalResults db iid rec1) iid ≤ 1) := by
  refine ⟨fun h => gFR_of_no_responses db iid rec1 h, ?_, ?_⟩
  · intro hne h0
    have hres : db.results.filter (fun r => r.interviewId == iid) = [] := by
      unfold countResults at h0
      rwa [List.length_eq_zero] at h0
    rw [gFR_inserts db iid rec1 hne hres]
    rw [gFR_of_result_exists _ iid rec2 (by
      dsimp only
      rw [List.filter_append]
      simp [hres])]
    rw [countResults_append_matching db iid _ (by simp)]
    unfold countResults at h0 ⊢
    omega
  · intro hle
    by_cases hresp : db.responses.filter (respOf iid) = []
    · rw [gFR_of_no_responses db iid rec1 hresp]; exact hle
    · by_cases hres : db.results.filter (fun r => r.interviewId == iid) = []
      · rw [gFR_inserts db iid rec1 hresp hres]
        rw [countResults_append_matching db iid _ (by simp)]
        have : countResults db iid = 0 := by
          unfold countResults
          rw [hres]
          rfl
        omega
      · rw [gFR_of_result_exists db iid rec1 hres]; exact hle

/-- A completed session with one response and no result yet. -/
def c3interview : Interview :=
  { id := 1, candidateId := 7, questions := ["q1"]
  , status := IStatus.completed, callSid := some "CA1"
  , recordingSid := none, audioUrl := none, duration := some 60
  , createdAt := 0, completedAt := some 5 }

def c3response : QResponse :=
  { interviewId := 1, questionNumber := 1, question := "q1"
  , transcript := "an answer", audioUrl := none, score := some 7
  , feedback := "ok" }

def c3db : DB :=
  { interviews := [c3interview], responses := [c3response], results := [] }

def c3rd : ResultData :=
  { overallScore := 7, recommendation := "Hire"
  , strengths := ["clear"], areasForImprovement := [] }

/-- C3 witness: generating results twice for a concrete completed session
with one response leaves exactly one InterviewResult. -/
theorem C3_witness :
    c3db.responses.filter (respOf 1) ≠ [] ∧
    countResults c3db 1 = 0 ∧
    countResults
      (generateFinalResults (generateFinalResults c3db 1 c3rd) 1 c3rd) 1 = 1 := by
  refine ⟨by decide, rfl, ?_⟩
  exact (C3_result_exactly_once c3db 1 c3rd c3rd).2.1 (by decide) rfl

/-! ## Claims C5 and C10 — fallback and truncation in question generation

`generate_questions_from_jd` truncates to `questions[:1]` on the success
path (`services.py:182`) and to `fallback_questions[:1]` on the failure path
(`services.py:197`), so it always returns at most one question — and in
particular the fallback path does **not** return the full 5-item fallback
list the claim C5 describes. -/

/-- If every provider attempt raises, `_make_request` raises. -/
theorem makeRequest_all_errors (l : List (Except String String))
    (h : ∀ a ∈ l, ∃ m, a = Except.error m) :
    ∃ m, makeRequest l = Except.error m := by
  induction l with
  | nil => exact ⟨"no attempts", rfl⟩
  | cons a rest ih =>
      obtain ⟨m, rfl⟩ := h a (List.mem_cons_self a rest)
      cases rest with
      | nil => exact ⟨m, rfl⟩
      | cons b tl =>
          have hstep : makeRequest (Except.error m :: b :: tl)
              = if retryableError m then makeRequest (b :: tl)
                else Except.error m := rfl
          rw [hstep]
          by_cases hr : retryableError m
          · rw [if_pos hr]
            exact ih (fun x hx => h x (List.mem_cons_of_mem _ hx))
          · rw [if_neg hr]
            exact ⟨m, rfl⟩

/-- Cleaning never lengthens a question list. -/
theorem cleanQuestions_length_le (l : List String) :
    (cleanQuestions l).length ≤ l.length := by
  induction l with
  | nil => simp [cleanQuestions]
  | cons q rest ih =>
      unfold cleanQuestions
      split
      · exact le_trans ih (by simp)
      · dsimp only
        split
        · exact le_trans ih (by simp)
        · simpa using ih

/-- The environment of a run in which all three provider attempts fail with
a retryable 503. -/
def c5env : GenEnv :=
  { attempts :=
      [ Except.error "503 Service Unavailable"
      , Except.error "503 Service Unavailable"
      , Except.error "503 Service Unavailable" ]
  , jsonParsed := none }

/-- C5 counterexample: with all three provider attempts raising, the
generator does not return the fixed 5-item fallback list — it returns a
single-element list (the fallback list truncated to its first entry by
`fallback_questions[:1]` at `services.py:197`). -/
theorem C5_counterexample :
    c5env.attempts =
      [ Except.error "503 Service Unavailable"
      , Except.error "503 Service Unavailable"
      , Except.error "503 Service Unavailable" ] ∧
    fallbackQuestions.length = 5 ∧
    generateQuestionsFromJd "Engineer" "Builds things" c5env ≠ fallbackQuestions ∧
    (generateQuestionsFromJd "Engineer" "Builds things" c5env).length = 1 := by
  refine ⟨rfl, rfl, ?_, ?_⟩ <;> decide

/-- C5 (amended): if the question-generation provider call raises on all
retry attempts, the generator returns the one-element list holding the first
of the fixed 5 fallback questions — never an empty list and never a raised
exception (the generator's failure branch returns instead of re-raising). -/
theorem C5_fallback_first_question (title description : String) (env : GenEnv)
    (h : ∀ a ∈ env.attempts, ∃ m, a = Except.error m) :
    generateQuestionsFromJd title description env
      = ["Can you tell me about your relevant experience for this role?"] ∧
    generateQuestionsFromJd title description env ≠ [] := by
  obtain ⟨m, hm⟩ := makeRequest_all_errors env.attempts h
  unfold generateQuestionsFromJd
  rw [hm]
  dsimp only
  refine ⟨?_, ?_⟩ <;> decide

/-- C5 witness: the amended theorem at the concrete all-503 environment. -/
theorem C5_witness :
    (∀ a ∈ c5env.attempts, ∃ m, a = Except.error m) ∧
    generateQuestionsFromJd "Engineer" "Builds things" c5env
      = ["Can you tell me about your relevant experience for this role?"] := by
  have h : ∀ a ∈ c5env.attempts, ∃ m, a = Except.error m := by
    intro a ha
    fin_cases ha <;> exact ⟨_, rfl⟩
  exact ⟨h, (C5_fallback_first_question "Engineer" "Builds things" c5env h).1⟩

/-- C10: for every input and every provider outcome, question generation
returns at most one question — both the provider-generated path
(`questions[:1]`) and the fallback path (`fallback_questions[:1]`) truncate
before cleaning, so every interview built from the result asks at most one
question. -/
theorem C10_at_most_one_question (title description : String) (env : GenEnv) :
    (generateQuestionsFromJd title description env).length ≤ 1 := by
  have hmain : ∀ l : List String, (cleanQuestions (l.take 1)).length ≤ 1 := by
    intro l
    refine le_trans (cleanQuestions_length_le (l.take 1)) ?_
    rw [List.length_take]
    exact min_le_left 1 l.length
  unfold generateQuestionsFromJd
  cases hmr : makeRequest env.attempts with
  | error m => exact hmain fallbackQuestions
  | ok text =>
      dsimp only
      cases hj : env.jsonParsed with
      | some qs => exact hmain qs
      | none => exact hmain _

/-! ## Claim C6 — transcription totality and degradation -/

@[simp] theorem respMatches_setAudioUrl (iid qn : Nat) (u : String)
    (r : QResponse) :
    respMatches iid qn (setAudioUrl u r) = respMatches iid qn r := rfl

@[simp] theorem respMatches_setTranscript (iid qn : Nat) (t : String)
    (r : QResponse) :
    respMatches iid qn (setTranscript t r) = respMatches iid qn r := rfl

@[simp] theorem respMatches_setAnalysis (iid qn : Nat) (sc : Rat) (fb : String)
    (r : QResponse) :
    respMatches iid qn (setAnalysis sc fb r) = respMatches iid qn r := rfl

@[simp] theorem transcript_setTranscript (t : String) (r : QResponse) :
    (setTranscript t r).transcript = t := rfl

@[simp] theorem transcript_setAnalysis (sc : Rat) (fb : String) (r : QResponse) :
    (setAnalysis sc fb r).transcript = r.transcript := rfl

theorem find?_resp_updateQResponse (db : DB) (iid qn : Nat)
    (f : QResponse → QResponse)
    (hf : ∀ r, (f r).interviewId = r.interviewId
      ∧ (f r).questionNumber = r.questionNumber) (iid' qn' : Nat) :
    (updateQResponse db iid qn f).responses.find? (respMatches iid' qn')
      = (db.responses.find? (respMatches iid' qn')).map
          (fun r => if respMatches iid qn r then f r else r) := by
  unfold updateQResponse
  exact find?_map_pred _ _
    (fun r => by
      cases h : respMatches iid qn r <;>
        simp [h, respMatches, (hf r).1, (hf r).2]) _

/-- A recording callback for a known session always answers with the hangup
TwiML and always leaves a response row for (session, question) whose
transcript is exactly what `transcribe_audio` returned. -/
theorem handleRecordResponse_stores_transcript (db : DB) (cb : RecordCallback)
    (env : RecordEnv) (i : Interview)
    (hfind : db.interviews.find? (fun j => j.id == cb.interviewId) = some i) :
    (handleRecordResponse db cb env).1 = HResp.twimlHangup ∧
    ∃ r, (handleRecordResponse db cb env).2.responses.find?
        (respMatches i.id cb.questionNumber) = some r ∧
      r.transcript = transcribeAudio env.trans cb.recordingUrl := by
  unfold handleRecordResponse
  rw [hfind]
  dsimp only
  refine ⟨rfl, ?_⟩
  rw [generateFinalResults_responses, updateInterview_responses]
  rw [find?_resp_updateQResponse _ _ _
    (setAnalysis env.analysisScore env.analysisFeedback) (fun _ => ⟨rfl, rfl⟩)]
  rw [find?_resp_updateQResponse _ _ _
    (setTranscript (transcribeAudio env.trans cb.recordingUrl)) (fun _ => ⟨rfl, rfl⟩)]
  rw [find?_resp_updateQResponse _ _ _
    (setAudioUrl cb.recordingUrl) (fun _ => ⟨rfl, rfl⟩)]
  cases hf0 : db.responses.find? (respMatches i.id cb.questionNumber) with
  | some r0 =>
      have hm0 := List.find?_some hf0
      split
      · rw [hf0]
        refine ⟨_, rfl, ?_⟩
        simp [hm0]
      · rename_i hc
        simp at hc
  | none =>
      split
      · rename_i hc
        simp at hc
      · dsimp only
        rw [find?_append_right _ _ _ hf0 (by simp [respMatches, newResponse])]
        refine ⟨_, rfl, ?_⟩
        simp [respMatches, newResponse, setAudioUrl, setTranscript, setAnalysis]

/-- C6: `transcribe_audio` never raises past its boundary — every run either
returns the whitespace-trimmed Whisper transcript or returns a string
prefixed "Transcription failed: " (in particular when the audio download
exhausts its 404 retries) — and the recording-callback path still stores a
ResponseRecord whose transcript is that sentinel string while answering with
its normal TwiML response instead of aborting. -/
theorem C6_transcription_degradation :
    (∀ (env : TranscribeEnv) (url : String),
      (∃ e, transcribeAudioInner env url = Except.error e ∧
        transcribeAudio env url = "Transcription failed: " ++ e) ∨
      (∃ t, env.whisper = Except.ok t ∧ transcribeAudio env url = pyStripWs t)) ∧
    (∀ (db : DB) (cb : RecordCallback) (env : RecordEnv) (i : Interview)
        (e : String),
      db.interviews.find? (fun j => j.id == cb.interviewId) = some i →
      transcribeAudioInner env.trans cb.recordingUrl = Except.error e →
      (handleRecordResponse db cb env).1 = HResp.twimlHangup ∧
      ∃ r, (handleRecordResponse db cb env).2.responses.find?
          (respMatches i.id cb.questionNumber) = some r ∧
        r.transcript = "Transcription failed: " ++ e) := by
  constructor
  · intro env url
    cases hinner : transcribeAudioInner env url with
    | error e =>
        refine Or.inl ⟨e, rfl, ?_⟩
        unfold transcribeAudio
        rw [hinner]
    | ok t' =>
        refine Or.inr ?_
        have hw : ∃ t, env.whisper = Except.ok t ∧ t' = pyStripWs t := by
          unfold transcribeAudioInner at hinner
          cases hsid : extractRecordingSid url with
          | none => rw [hsid] at hinner; simp at hinner
          | some sid =>
              rw [hsid] at hinner
              dsimp only at hinner
              cases hfetch : env.fetched with
              | error e => rw [hfetch] at hinner; simp at hinner
              | ok info =>
                  rw [hfetch] at hinner
                  dsimp only at hinner
                  by_cases hst : info.finalStatus ≠ "completed"
                  · rw [if_pos hst] at hinner; simp at hinner
                  · rw [if_neg hst] at hinner
                    cases hmedia : mediaUrlOf info with
                    | none => rw [hmedia] at hinner; simp at hinner
                    | some mu =>
                        rw [hmedia] at hinner
                        dsimp only at hinner
                        cases hdl : downloadLoop
                            [env.download1, env.download2, env.download3] with
                        | error e => rw [hdl] at hinner; simp at hinner
                        | ok audio =>
                            rw [hdl] at hinner
                            dsimp only at hinner
                            cases hwh : env.whisper with
                            | error e => rw [hwh] at hinner; simp at hinner
                            | ok t =>
                                rw [hwh] at hinner
                                dsimp only at hinner
                                exact ⟨t, rfl, (Except.ok.inj hinner).symm⟩
        obtain ⟨t, hwt, ht⟩ := hw
        refine ⟨t, hwt, ?_⟩
        unfold transcribeAudio
        rw [hinner, ht]
  · intro db cb env i e hfind herr
    obtain ⟨h1, r, hr, htr⟩ :=
      handleRecordResponse_stores_transcript db cb env i hfind
    refine ⟨h1, r, hr, ?_⟩
    rw [htr]
    unfold transcribeAudio
    rw [herr]

/-- A transcription environment whose three download attempts all hit 404
(the recording never propagated). -/
def c6tenv : TranscribeEnv :=
  { fetched := Except.ok
      { uri := some "/2010-04-01/Accounts/AC1/Recordings/RE00000000000000000000000000000001.json"
      , mediaLocation := none, finalStatus := "completed" }
  , download1 := DownloadOutcome.notFound
  , download2 := DownloadOutcome.notFound
  , download3 := DownloadOutcome.notFound
  , whisper := Except.ok "never reached" }

def c6url : String :=
  "https://api.twilio.com/2010-04-01/Accounts/AC1/Recordings/RE00000000000000000000000000000001"

def c6msg : String :=
  "Failed to download audio after 3 attempts: Audio file not available after 3 attempts (HTTP 404)"

def c6interview : Interview :=
  { id := 1, candidateId := 7, questions := ["q1"]
  , status := IStatus.in_progress, callSid := some "CA1"
  , recordingSid := none, audioUrl := none, duration := none
  , createdAt := 0, completedAt := none }

def c6db : DB :=
  { interviews := [c6interview], responses := [], results := [] }

def c6rd : ResultData :=
  { overallScore := 5, recommendation := "Consider"
  , strengths := [], areasForImprovement := [] }

def c6env : RecordEnv :=
  { trans := c6tenv, analysisScore := 5, analysisFeedback := "n/a"
  , recData := c6rd, now := 9 }

def c6cb : RecordCallback :=
  { interviewId := 1, questionNumber := 1
  , recordingUrl := c6url
  , recordingSid := "RE00000000000000000000000000000001" }

/-- C6 witness: with all three download attempts returning 404, the stored
row's transcript is the error-prefixed sentinel and the callback still
answers normally. -/
theorem C6_witness :
    transcribeAudioInner c6tenv c6url = Except.error c6msg ∧
    (handleRecordResponse c6db c6cb c6env).1 = HResp.twimlHangup ∧
    ∃ r, (handleRecordResponse c6db c6cb c6env).2.responses.find?
        (respMatches 1 1) = some r ∧
      r.transcript = "Transcription failed: " ++ c6msg := by
  have herr : transcribeAudioInner c6tenv c6url = Except.error c6msg := by decide
  exact ⟨herr,
    (C6_transcription_degradation.2 c6db c6cb c6env c6interview c6msg rfl herr).1,
    (C6_transcription_degradation.2 c6db c6cb c6env c6interview c6msg rfl herr).2⟩

/-! ## Claim C7 — call-initiation preconditions and allow-list -/

/-- C7: an empty session id, phone number or question list is rejected with
a precondition error before any call is placed; a phone number outside the
allow-list (with no wildcard present) raises the permission error and places
no call — on every such invocation, including a repeat with the same number
(the log of placed calls is unchanged after both). -/
theorem C7_preconditions_and_allowlist (interviewId phone : String)
    (qs : List String) (wlEnv : Option (List String)) (sid1 sid2 : String)
    (log : List String) :
    ((interviewId = "" ∨ phone = "" ∨ qs = []) →
      ∃ m, initiateCall interviewId phone qs wlEnv sid1 log
        = (CallAttempt.precondError m, log)) ∧
    ((wlEnv.getD ["*"]).contains "*" = false →
      (wlEnv.getD ["*"]).contains phone = false →
      interviewId ≠ "" → phone ≠ "" → qs ≠ [] →
      initiateCall interviewId phone qs wlEnv sid1 log
        = (CallAttempt.notWhitelisted phone, log) ∧
      initiateCall interviewId phone qs wlEnv sid2
          (initiateCall interviewId phone qs wlEnv sid1 log).2
        = (CallAttempt.notWhitelisted phone,
            (initiateCall interviewId phone qs wlEnv sid1 log).2) ∧
      (initiateCall interviewId phone qs wlEnv sid2
          (initiateCall interviewId phone qs wlEnv sid1 log).2).2 = log) := by
  constructor
  · intro h
    unfold initiateCall
    by_cases h1 : interviewId = ""
    · rw [if_pos h1]; exact ⟨_, rfl⟩
    · rw [if_neg h1]
      by_cases h2 : phone = ""
      · rw [if_pos h2]; exact ⟨_, rfl⟩
      · rw [if_neg h2]
        have h3 : qs = [] := by tauto
        rw [if_pos h3]
        exact ⟨_, rfl⟩
  · intro hstar hphone h1 h2 h3
    have hgen : ∀ (s : String) (l : List String),
        initiateCall interviewId phone qs wlEnv s l
          = (CallAttempt.notWhitelisted phone, l) := by
      intro s l
      unfold initiateCall
      rw [if_neg h1, if_neg h2, if_neg h3]
      dsimp only
      rw [if_pos ⟨by simpa using hstar, by simpa using hphone⟩]
    refine ⟨hgen sid1 log, ?_, ?_⟩
    · rw [hgen sid1 log]
      exact hgen sid2 log
    · rw [hgen sid1 log, hgen sid2 log]

/-- C7 witness: starting twice with the same non-allow-listed number fails
both times with the permission error, and no call is ever logged. -/
theorem C7_witness :
    ((some ["+19998887777"] : Option (List String)).getD ["*"]).contains "*"
      = false ∧
    initiateCall "iid1" "+15550001111" ["q1"] (some ["+19998887777"]) "CA2"
        (initiateCall "iid1" "+15550001111" ["q1"]
          (some ["+19998887777"]) "CA1" []).2
      = (CallAttempt.notWhitelisted "+15550001111",
          (initiateCall "iid1" "+15550001111" ["q1"]
            (some ["+19998887777"]) "CA1" []).2) ∧
    (initiateCall "iid1" "+15550001111" ["q1"] (some ["+19998887777"]) "CA2"
        (initiateCall "iid1" "+15550001111" ["q1"]
          (some ["+19998887777"]) "CA1" []).2).2 = [] := by
  refine ⟨by decide, ?_, ?_⟩
  · exact ((C7_preconditions_and_allowlist "iid1" "+15550001111" ["q1"]
      (some ["+19998887777"]) "CA1" "CA2" []).2 (by decide) (by decide)
      (by decide) (by decide) (by decide)).2.1
  · exact ((C7_preconditions_and_allowlist "iid1" "+15550001111" ["q1"]
      (some ["+19998887777"]) "CA1" "CA2" []).2 (by decide) (by decide)
      (by decide) (by decide) (by decide)).2.2

/-! ## Claim C8 — job-description deduplication (code bug)

The dedup read path exists (`views.py:60-74`), but the save path at
`views.py:92` calls `transaction.atomic()` without `transaction` ever being
imported in `views.py`, so creating a JobDescription raises `NameError`
and the view answers HTTP 500.  A fresh (title, description) pair therefore
never becomes a stored record: submitting the same pair twice returns the
500 error both times, creates nothing, and invokes the question-generation
provider on *both* submissions — contradicting the claimed scenario. -/

def c8db : JDB := { jds := [] }

def c8env : GenEnv :=
  { attempts :=
      [ Except.error "503 Service Unavailable"
      , Except.error "503 Service Unavailable"
      , Except.error "503 Service Unavailable" ]
  , jsonParsed := none }

/-- C8 (code evaluated at the failing input): both submissions of the same
fresh (title, description) pair return the save error, leave the table
empty, and invoke the provider (third component `true`). -/
theorem C8_code_eval :
    jdToQuestionsPost c8db "Engineer" "Builds data pipelines" c8env
      = (JDPostResp.saveError, c8db, true) ∧
    jdToQuestionsPost
        (jdToQuestionsPost c8db "Engineer" "Builds data pipelines" c8env).2.1
        "Engineer" "Builds data pipelines" c8env
      = (JDPostResp.saveError, c8db, true) := by
  exact ⟨rfl, rfl⟩

/-! ## Claim C9 — stuck-session sweep

The sweep's age filter is 10 minutes (`fix_stuck_interviews.py:26`), so
every `in_progress` session older than 15 minutes with zero responses is —
a fortiori — marked failed, and a session with at least one response is
never touched. -/

/-- C9: a session in `in_progress` created more than 15 minutes ago with
zero ResponseRecords is marked `failed` by the sweep; a session in
`in_progress` with at least one ResponseRecord is left unchanged. -/
theorem C9_stuck_sweep (db : DB) (now k : Nat)
    (hk : k < db.interviews.length)
    (hk2 : k < (fixStuckInterviews db now).interviews.length)
    (hst : (db.interviews.get ⟨k, hk⟩).status = IStatus.in_progress) :
    ((db.interviews.get ⟨k, hk⟩).createdAt + 15 < now →
      countResponses db (db.interviews.get ⟨k, hk⟩).id = 0 →
      ((fixStuckInterviews db now).interviews.get ⟨k, hk2⟩).status
        = IStatus.failed) ∧
    (1 ≤ countResponses db (db.interviews.get ⟨k, hk⟩).id →
      (fixStuckInterviews db now).interviews.get ⟨k, hk2⟩
        = db.interviews.get ⟨k, hk⟩) := by
  have hmap : (fixStuckInterviews db now).interviews.get ⟨k, hk2⟩
      = sweepOne db now (db.interviews.get ⟨k, hk⟩) := by
    unfold fixStuckInterviews
    simp [List.get_eq_getElem, List.getElem_map]
  constructor
  · intro hage hzero
    rw [hmap]
    unfold sweepOne
    rw [if_pos ⟨hst, by omega, hzero⟩]
  · intro hpos
    rw [hmap]
    unfold sweepOne
    rw [if_neg (by rintro ⟨_, _, h0⟩; omega)]

/-- A session stuck in `in_progress` for 16 minutes with no responses. -/
def c9interviewA : Interview :=
  { id := 1, candidateId := 7, questions := ["q1"]
  , status := IStatus.in_progress, callSid := some "CA1"
  , recordingSid := none, audioUrl := none, duration := none
  , createdAt := 0, completedAt := none }

def c9dbA : DB :=
  { interviews := [c9interviewA], responses := [], results := [] }

/-- An equally old `in_progress` session that has one response. -/
def c9interviewB : Interview :=
  { id := 2, candidateId := 8, questions := ["q1"]
  , status := IStatus.in_progress, callSid := some "CA2"
  , recordingSid := none, audioUrl := none, duration := none
  , createdAt := 0, completedAt := none }

def c9responseB : QResponse :=
  { interviewId := 2, questionNumber := 1, question := "q1"
  , transcript := "an answer", audioUrl := none, score := none, feedback := "" }

def c9dbB : DB :=
  { interviews := [c9interviewB], responses := [c9responseB], results := [] }

/-- C9 witness: the sweep at minute 16 fails the empty stuck session and
leaves the session with a response untouched. -/
theorem C9_witness :
    c9interviewA.createdAt + 15 < 16 ∧
    countResponses c9dbA 1 = 0 ∧
    ((fixStuckInterviews c9dbA 16).interviews.get ⟨0, by decide⟩).status
      = IStatus.failed ∧
    (fixStuckInterviews c9dbB 16).interviews.get ⟨0, by decide⟩
      = c9dbB.interviews.get ⟨0, by decide⟩ := by
  refine ⟨by decide, rfl, ?_, ?_⟩
  · exact (C9_stuck_sweep c9dbA 16 0 (by decide) (by decide) rfl).1
      (by decide) rfl
  · exact (C9_stuck_sweep c9dbB 16 0 (by decide) (by decide) rfl).2 (by decide)

end AIScreener
